import Mathlib

/-!
Verification of the Tómbola game logic (`game/logica.py`) and the draw/prize
orchestration (`game/views_tombola.py`).

A card (`carton`) is a 3×9 grid of optional numbers, embedded as
`List (List (Option Nat))`.  Python's `random.choice` / `random.sample` are
embedded as explicit oracle parameters: any actual run of the Python code
corresponds to one instantiation of the oracle, so properties proved for all
oracles hold for every run.
-/

namespace Tombola

abbrev Carton := List (List (Option Nat))

namespace TombolaLogic

/-- Column ranges, `RANGOS_COLUMNAS` in `logica.py`. -/
def RANGOS_COLUMNAS : List (Nat × Nat) :=
  [(1, 10), (11, 20), (21, 30), (31, 40), (41, 50),
   (51, 60), (61, 70), (71, 80), (81, 90)]

/-- Numbers of one row: `[n for n in fila if n is not None]`. -/
def numerosFila (fila : List (Option Nat)) : List Nat := fila.filterMap id

/-- All numbers of a card: `[n for fila in carton for n in fila if n is not None]`. -/
def todosNumeros (carton : Carton) : List Nat := (carton.map numerosFila).flatten

/-- Numbers of column `col`, top to bottom:
`[carton[fila][col] for fila in range(3) if carton[fila][col] is not None]`. -/
def columna (carton : Carton) (col : Nat) : List Nat :=
  (List.range 3).filterMap (fun f => (carton.getD f []).getD col none)

/-- `l == sorted(l)` for a list of naturals (non-decreasing order check). -/
def estaOrdenada : List Nat → Bool
  | [] => true
  | [_] => true
  | a :: b :: rest => a ≤ b && estaOrdenada (b :: rest)

/-- `len(l) != len(set(l))`: does the list contain a duplicate? -/
def tieneDuplicados : List Nat → Bool
  | [] => false
  | n :: rest => rest.contains n || tieneDuplicados rest

/-- Range check for one cell of column with range `[inicio, fin]`
(`if num is not None: inicio <= num <= fin`). -/
def celdaEnRango (cell : Option Nat) (inicio fin : Nat) : Bool :=
  match cell with
  | none => true
  | some num => inicio ≤ num && num ≤ fin

/-- `TombolaLogic._es_carton_valido`: the seven checks, in source order,
joined by short-circuit conjunction (the source returns `False` early). -/
def esCartonValido (carton : Carton) : Bool :=
  carton.length == 3 &&
  carton.all (fun fila => fila.length == 9) &&
  carton.all (fun fila => (numerosFila fila).length == 5) &&
  ((carton.map (fun fila => (numerosFila fila).length)).sum == 15) &&
  (List.range 9).all (fun col =>
    1 ≤ (carton.filter (fun fila => (fila.getD col none).isSome)).length &&
    (carton.filter (fun fila => (fila.getD col none).isSome)).length ≤ 3) &&
  (List.range 9).all (fun col =>
    (List.range 3).all (fun fila =>
      celdaEnRango ((carton.getD fila []).getD col none)
        (RANGOS_COLUMNAS.getD col (0, 0)).1 (RANGOS_COLUMNAS.getD col (0, 0)).2)) &&
  (List.range 9).all (fun col => estaOrdenada (columna carton col)) &&
  !(tieneDuplicados (todosNumeros carton))

/-- The list `disponibles` of `TombolaLogic.sortear_numero`:
`[n for n in range(1, 91) if n not in numeros_sorteados]`. -/
def disponiblesSorteo (numeros_sorteados : List Nat) : List Nat :=
  (List.range' 1 90).filter (fun n => !(numeros_sorteados.contains n))

/-- `TombolaLogic.sortear_numero`.  `random.choice(disponibles)` is embedded as
an oracle `choice` producing an arbitrary index, taken modulo the length so the
pick is always an element of `disponibles`, as `random.choice` guarantees. -/
def sortear_numero (numeros_sorteados : List Nat) (choice : List Nat → Nat) :
    Option Nat :=
  if (disponiblesSorteo numeros_sorteados).isEmpty then none
  else some ((disponiblesSorteo numeros_sorteados).getD
    (choice (disponiblesSorteo numeros_sorteados) %
      (disponiblesSorteo numeros_sorteados).length) 0)

/-- `TombolaLogic.marcar_numero`.  The Python mutates `marcados` in place and
returns a boolean; the embedding returns the pair (result, new marked list).
The source walks the rows and returns at the first one containing `numero`. -/
def marcar_numero : Carton → Nat → List Nat → Bool × List Nat
  | [], _, marcados => (false, marcados)
  | fila :: resto, numero, marcados =>
    if fila.any (fun c => c == some numero) then
      (true, if marcados.contains numero then marcados else marcados ++ [numero])
    else
      marcar_numero resto numero marcados

/-- Count of marked numbers in one row:
`sum(1 for n in numeros_fila if n in marcados_set)`. -/
def marcadosEnFila (fila : List (Option Nat)) (marcados : List Nat) : Nat :=
  ((numerosFila fila).filter (fun n => marcados.contains n)).length

/-- `TombolaLogic.verificar_ambo`: some row has ≥ 2 marked numbers. -/
def verificar_ambo (carton : Carton) (marcados : List Nat) : Bool :=
  carton.any (fun fila => 2 ≤ marcadosEnFila fila marcados)

/-- `TombolaLogic.verificar_terno`: some row has ≥ 3 marked numbers. -/
def verificar_terno (carton : Carton) (marcados : List Nat) : Bool :=
  carton.any (fun fila => 3 ≤ marcadosEnFila fila marcados)

/-- `TombolaLogic.verificar_quaterna`: some row has ≥ 4 marked numbers. -/
def verificar_quaterna (carton : Carton) (marcados : List Nat) : Bool :=
  carton.any (fun fila => 4 ≤ marcadosEnFila fila marcados)

/-- `TombolaLogic.verificar_cinquina`: some row has exactly 5 marked numbers
(the source tests equality, not ≥). -/
def verificar_cinquina (carton : Carton) (marcados : List Nat) : Bool :=
  carton.any (fun fila => marcadosEnFila fila marcados == 5)

/-- `TombolaLogic.verificar_tombola`: the card must hold exactly 15 numbers and
all of them must be marked. -/
def verificar_tombola (carton : Carton) (marcados : List Nat) : Bool :=
  let todos := todosNumeros carton
  todos.length == 15 && todos.all (fun n => marcados.contains n)

/-- Result of `TombolaLogic.obtener_estado_premios` (a five-key dict). -/
structure EstadoPremios where
  ambo : Bool
  terno : Bool
  quaterna : Bool
  cinquina : Bool
  tombola : Bool
deriving DecidableEq, Repr

/-- `TombolaLogic.obtener_estado_premios`. -/
def obtener_estado_premios (carton : Carton) (marcados : List Nat) :
    EstadoPremios where
  ambo := verificar_ambo carton marcados
  terno := verificar_terno carton marcados
  quaterna := verificar_quaterna carton marcados
  cinquina := verificar_cinquina carton marcados
  tombola := verificar_tombola carton marcados

/-- Insertion sort on naturals, embedding Python's `sorted` / `list.sort`. -/
def insertarOrdenado (n : Nat) : List Nat → List Nat
  | [] => [n]
  | m :: rest => if n ≤ m then n :: m :: rest else m :: insertarOrdenado n rest

/-- Sort a list of naturals in non-decreasing order. -/
def ordenarLista : List Nat → List Nat
  | [] => []
  | n :: rest => insertarOrdenado n (ordenarLista rest)

/-- The row loop of `_generar_distribucion_columnas` for one attempt: walks the
3 rows, each time filtering the columns whose counter is below 3, breaking if
fewer than 5 remain, otherwise taking the 5 sampled columns (sorted) and
increasing their counters.  `sample fila disponibles` embeds
`random.sample(columnas_disponibles, 5)` for row `fila`. -/
def distribucionFilas (sample : Nat → List Nat → List Nat) :
    Nat → List Nat → List (List Nat) → List Nat × List (List Nat)
  | 0, contador, distribucion => (contador, distribucion)
  | restantes + 1, contador, distribucion =>
    let columnas_disponibles := (List.range 9).filter
      (fun c => contador.getD c 0 < 3)
    if columnas_disponibles.length < 5 then (contador, distribucion)
    else
      let seleccionadas := ordenarLista (sample (3 - (restantes + 1))
        columnas_disponibles)
      let contador' := seleccionadas.foldl
        (fun ct col => ct.set col (ct.getD col 0 + 1)) contador
      distribucionFilas sample restantes contador' (distribucion ++ [seleccionadas])

/-- One attempt of `_generar_distribucion_columnas`: run the row loop from a
zeroed counter and apply the four validations (3 rows generated, every column
counter in `[1, 3]`, total of 15). -/
def distribucionIntento (sample : Nat → List Nat → List Nat) :
    Option (List (List Nat)) :=
  match distribucionFilas sample 3 (List.replicate 9 0) [] with
  | (contador, distribucion) =>
    if distribucion.length == 3 &&
        contador.all (fun count => 1 ≤ count) &&
        contador.all (fun count => count ≤ 3) &&
        contador.sum == 15 then
      some distribucion
    else
      none

/-- `TombolaLogic._generar_distribucion_columnas`: up to `fuel` (100) attempts;
the remaining fuel doubles as the attempt identifier handed to the sampler. -/
def generar_distribucion_columnas (sample : Nat → Nat → List Nat → List Nat) :
    Nat → Option (List (List Nat))
  | 0 => none
  | fuel + 1 =>
    match distribucionIntento (sample fuel) with
    | some distribucion => some distribucion
    | none => generar_distribucion_columnas sample fuel

/-- `carton[fila][col] = v`. -/
def setCelda (carton : Carton) (fila col : Nat) (v : Option Nat) : Carton :=
  carton.set fila ((carton.getD fila []).set col v)

/-- The empty 3×9 grid `[[None]*9]*3`. -/
def cartonVacio : Carton := List.replicate 3 (List.replicate 9 none)

/-- Paso 2 of `generar_carton` for one row: walk that row's columns, compute
the unused numbers of the column's range and place one; the inner loop breaks
(leaving the card as is) when a column's range is exhausted.
`choice fila col disponibles` embeds `random.choice(disponibles)`, reduced
modulo the length so it always selects an element. -/
def asignarNumeros (choice : Nat → Nat → List Nat → Nat) (fila_idx : Nat) :
    List Nat → Carton → Carton
  | [], carton => carton
  | col :: resto, carton =>
    let usados := columna carton col
    let disponibles := (List.range' (RANGOS_COLUMNAS.getD col (0, 0)).1
        ((RANGOS_COLUMNAS.getD col (0, 0)).2 + 1 -
          (RANGOS_COLUMNAS.getD col (0, 0)).1)).filter
      (fun n => !(usados.contains n))
    if disponibles.isEmpty then carton
    else
      asignarNumeros choice fila_idx resto
        (setCelda carton fila_idx col
          (some (disponibles.getD
            (choice fila_idx col disponibles % disponibles.length) 0)))

/-- Paso 3 of `generar_carton` for one column: collect the rows holding a
number and the column's numbers, sort the numbers, and write them back
top-to-bottom. -/
def ordenarColumnaCarton (carton : Carton) (col : Nat) : Carton :=
  ((((List.range 3).filter
      (fun fila => ((carton.getD fila []).getD col none).isSome)).zip
    (ordenarLista (columna carton col))).foldl
    (fun ct p => setCelda ct p.1 col (some p.2)) carton)

/-- Paso 3 of `generar_carton`: sort every column. -/
def ordenarColumnas (carton : Carton) : Carton :=
  (List.range 9).foldl ordenarColumnaCarton carton

/-- The two random sources used by one attempt of `generar_carton`. -/
structure OraculoIntento where
  sample : Nat → Nat → List Nat → List Nat
  choice : Nat → Nat → List Nat → Nat

/-- One attempt of `generar_carton` (pasos 1–3): generate a distribution (with
its own 100-attempt budget), assign numbers row by row, sort the columns.
Returns `none` when the distribution phase fails, making the outer loop
`continue`. -/
def intentoCarton (o : OraculoIntento) : Option Carton :=
  match generar_distribucion_columnas o.sample 100 with
  | none => none
  | some distribucion =>
    some (ordenarColumnas
      (distribucion.enum.foldl
        (fun ct p => asignarNumeros o.choice p.1 p.2 ct) cartonVacio))

/-- The attempt loop of `generar_carton`: the second component counts the
attempts made.  A produced card is returned only if `_es_carton_valido`
accepts it (paso 4); otherwise the attempt is retried until the fuel (100)
runs out, at which point the exception is raised. -/
def generarCartonAux (o : Nat → OraculoIntento) :
    Nat → Nat → Except String Carton × Nat
  | intento, 0 =>
    (.error "No se pudo generar un cartón válido después de 100 intentos",
     intento)
  | intento, fuel + 1 =>
    match intentoCarton (o intento) with
    | none => generarCartonAux o (intento + 1) fuel
    | some carton =>
      if esCartonValido carton then (.ok carton, intento + 1)
      else generarCartonAux o (intento + 1) fuel

/-- `TombolaLogic.generar_carton`, with `max_intentos = 100`.  The oracle
supplies the random draws of each attempt. -/
def generar_carton (o : Nat → OraculoIntento) : Except String Carton :=
  (generarCartonAux o 0 100).1

/-- Number of attempts `generar_carton` makes before returning or failing. -/
def generar_carton_intentos (o : Nat → OraculoIntento) : Nat :=
  (generarCartonAux o 0 100).2

/-- A deterministic oracle under which the first generation attempt already
succeeds: rows take columns 0–4, 4–8 and 0–3,5, and every `random.choice`
picks the first available number. -/
def oraculoW : Nat → OraculoIntento := fun _ =>
  { sample := fun _ fila _ =>
      match fila with
      | 0 => [0, 1, 2, 3, 4]
      | 1 => [4, 5, 6, 7, 8]
      | _ => [0, 1, 2, 3, 5]
    choice := fun _ _ _ => 0 }

/-- The card `generar_carton` produces under `oraculoW`. -/
def cartonW : Carton :=
  [[some 1, some 11, some 21, some 31, some 41, none, none, none, none],
   [none, none, none, none, some 42, some 51, some 61, some 71, some 81],
   [some 2, some 12, some 22, some 32, none, some 52, none, none, none]]

/-- Does `numero` appear anywhere on the card (`numero in fila` for some row)? -/
def numeroEnCarton (carton : Carton) (numero : Nat) : Bool :=
  carton.any (fun fila => fila.any (fun c => c == some numero))

/-- The §3 structural invariants of a card, as the spec states them: 3×9
shape, 5 numbers per row and 15 in total, the numbers of column `c` inside
`[10c+1, 10c+10]`, between 1 and 3 numbers per column, columns strictly
increasing top-to-bottom, and no duplicate anywhere. -/
def InvariantesCarton (carton : Carton) : Prop :=
  carton.length = 3 ∧
  (∀ fila ∈ carton, fila.length = 9) ∧
  (∀ fila ∈ carton, (numerosFila fila).length = 5) ∧
  (todosNumeros carton).length = 15 ∧
  (∀ col, col < 9 → ∀ n ∈ columna carton col,
    10 * col + 1 ≤ n ∧ n ≤ 10 * col + 10) ∧
  (∀ col, col < 9 →
    1 ≤ (columna carton col).length ∧ (columna carton col).length ≤ 3) ∧
  (∀ col, col < 9 → (columna carton col).Chain' (· < ·)) ∧
  (todosNumeros carton).Nodup

/-- Spec-side variant of the cinquina check that uses `≥ 5` instead of the
source's `== 5`, for the refinement comparison of the two thresholds. -/
def verificar_cinquina_ge (carton : Carton) (marcados : List Nat) : Bool :=
  carton.any (fun fila => 5 ≤ marcadosEnFila fila marcados)

end TombolaLogic

/-- The concrete card of the spec's scenario A (7 numbers only). -/
def cartonA : Carton :=
  [[some 1, some 12, some 23, some 34, some 45, none, none, none, none],
   [none, none, none, none, none, some 56, none, none, none],
   [none, none, none, none, none, none, none, none, some 90]]

namespace Views

/-- The status values of the `Game` model that the views compare against. -/
inductive GameStatus
  | waiting
  | in_progress
  | finished
  | cancelled
deriving DecidableEq, Repr

/-- A card row of the database: its numbers and its marked list. -/
structure CartonEstado where
  numbers : Carton
  marked : List Nat
deriving DecidableEq, Repr

/-- A `Prize` row: the tier name and the index (join order) of the winning
card. -/
structure Premio where
  tipo : String
  ganador : Nat
deriving DecidableEq, Repr

/-- The per-game state touched by `sortear_numero` and
`verificar_premios_partida`. -/
structure Partida where
  status : GameStatus
  drawn_numbers : List Nat
  current_number : Option Nat
  cartones : List CartonEstado
  prizes : List Premio
  finished_at : Option Nat
deriving DecidableEq, Repr

/-- `getattr(TombolaLogic, f'verificar_{tipo_premio}')`: dispatch from the
tier name to its check. -/
def verificarTipo : String → Carton → List Nat → Bool
  | "tombola", carton, marcados => TombolaLogic.verificar_tombola carton marcados
  | "cinquina", carton, marcados => TombolaLogic.verificar_cinquina carton marcados
  | "quaterna", carton, marcados => TombolaLogic.verificar_quaterna carton marcados
  | "terno", carton, marcados => TombolaLogic.verificar_terno carton marcados
  | "ambo", carton, marcados => TombolaLogic.verificar_ambo carton marcados
  | _, _, _ => false

/-- `premios_jerarquia`: tiers scanned from hardest to easiest. -/
def premiosJerarquia : List String :=
  ["tombola", "cinquina", "quaterna", "terno", "ambo"]

/-- The inner card scan of `verificar_premios_partida`: the first card (in
join order) whose check passes wins the tier. -/
def buscarGanador (cartones : List CartonEstado) (tipo : String) : Option Nat :=
  cartones.findIdx? (fun ce => verificarTipo tipo ce.numbers ce.marked)

/-- The tier loop of `verificar_premios_partida`: skip tiers already awarded,
award the first winning card of a tier, and on a tombola award finish the
game (status `finished`, finish time stamped) and return at once, skipping
the remaining tiers. -/
def verificarPremiosAux (now : Nat) :
    Partida → List String → Partida × List Premio
  | partida, [] => (partida, [])
  | partida, tipo :: resto =>
    if partida.prizes.any (fun p => p.tipo == tipo) then
      verificarPremiosAux now partida resto
    else
      match buscarGanador partida.cartones tipo with
      | none => verificarPremiosAux now partida resto
      | some idx =>
        if tipo == "tombola" then
          ({ partida with
              prizes := partida.prizes ++ [{ tipo := tipo, ganador := idx }],
              status := .finished, finished_at := some now },
           [{ tipo := tipo, ganador := idx }])
        else
          ((verificarPremiosAux now
              { partida with
                prizes := partida.prizes ++ [{ tipo := tipo, ganador := idx }] }
              resto).1,
           { tipo := tipo, ganador := idx } ::
             (verificarPremiosAux now
               { partida with
                 prizes := partida.prizes ++ [{ tipo := tipo, ganador := idx }] }
               resto).2)

/-- `views_tombola.verificar_premios_partida`: returns the updated game state
and the newly awarded prizes. -/
def verificar_premios_partida (now : Nat) (partida : Partida) :
    Partida × List Premio :=
  verificarPremiosAux now partida premiosJerarquia

/-- `views_tombola.sortear_numero` (the host permission check is
authentication, out of scope): reject unless the game is in progress, reject
when 90 numbers are drawn, draw a number with the logic, append it to the
history, mark it on every card, then evaluate prizes — all one atomic step
here.  Returns the updated state, the number and the new prizes. -/
def sortear_numero (partida : Partida) (choice : List Nat → Nat) (now : Nat) :
    Except String (Partida × Nat × List Premio) :=
  if partida.status ≠ GameStatus.in_progress then
    .error "La partida no está en progreso"
  else if 90 ≤ partida.drawn_numbers.length then
    .error "Ya se sortearon todos los números (1-90)"
  else
    match TombolaLogic.sortear_numero partida.drawn_numbers choice with
    | none => .error "No hay más números disponibles para sortear"
    | some numero =>
      let partida' : Partida :=
        { partida with
          drawn_numbers := partida.drawn_numbers ++ [numero],
          current_number := some numero,
          cartones := partida.cartones.map (fun ce =>
            { ce with marked :=
                (TombolaLogic.marcar_numero ce.numbers numero ce.marked).2 }) }
      .ok ((verificar_premios_partida now partida').1, numero,
        (verificar_premios_partida now partida').2)

/-- A concrete in-progress game with one card (`cartonW`) whose 15 numbers
are all marked, so the next prize evaluation awards the tombola. -/
def partidaW : Partida :=
  { status := GameStatus.in_progress
    drawn_numbers := [1, 11, 21]
    current_number := some 21
    cartones := [{ numbers := TombolaLogic.cartonW,
                   marked := TombolaLogic.todosNumeros TombolaLogic.cartonW }]
    prizes := []
    finished_at := none }

end Views

namespace TombolaLogic

theorem any_congr {α : Type} {l : List α} {p q : α → Bool}
    (h : ∀ a ∈ l, p a = q a) : l.any p = l.any q := by
  induction l with
  | nil => rfl
  | cons a l ih =>
    simp only [List.any_cons]
    rw [h a (by simp), ih (fun b hb => h b (by simp [hb]))]

theorem all_congr {α : Type} {l : List α} {p q : α → Bool}
    (h : ∀ a ∈ l, p a = q a) : l.all p = l.all q := by
  induction l with
  | nil => rfl
  | cons a l ih =>
    simp only [List.all_cons]
    rw [h a (by simp), ih (fun b hb => h b (by simp [hb]))]

theorem mem_todosNumeros_of_mem_fila {carton : Carton} {fila : List (Option Nat)}
    {n : Nat} (hf : fila ∈ carton) (hn : n ∈ numerosFila fila) :
    n ∈ todosNumeros carton := by
  simp only [todosNumeros, List.mem_flatten, List.mem_map]
  exact ⟨numerosFila fila, ⟨fila, hf, rfl⟩, hn⟩

theorem marcadosEnFila_congr {carton : Carton} {fila : List (Option Nat)}
    {m₁ m₂ : List Nat} (hf : fila ∈ carton)
    (h : ∀ n ∈ todosNumeros carton, m₁.contains n = m₂.contains n) :
    marcadosEnFila fila m₁ = marcadosEnFila fila m₂ := by
  unfold marcadosEnFila
  rw [List.filter_congr (fun n hn => h n (mem_todosNumeros_of_mem_fila hf hn))]

theorem marcadosEnFila_le (fila : List (Option Nat)) (marcados : List Nat) :
    marcadosEnFila fila marcados ≤ (numerosFila fila).length :=
  List.length_filter_le _ _

/-- Claim C7: if the cinquina check succeeds then so do the quaterna, terno
and ambo checks on the same card and marked set. -/
theorem c7_cinquina_implica_inferiores (carton : Carton) (marcados : List Nat)
    (h : verificar_cinquina carton marcados = true) :
    verificar_quaterna carton marcados = true ∧
    verificar_terno carton marcados = true ∧
    verificar_ambo carton marcados = true := by
  simp only [verificar_cinquina, List.any_eq_true, beq_iff_eq] at h
  obtain ⟨fila, hf, h5⟩ := h
  refine ⟨?_, ?_, ?_⟩ <;>
    simp only [verificar_quaterna, verificar_terno, verificar_ambo,
      List.any_eq_true, decide_eq_true_eq] <;>
    exact ⟨fila, hf, by omega⟩

theorem c7_witness :
    verificar_cinquina cartonA [1, 12, 23, 34, 45] = true ∧
    verificar_quaterna cartonA [1, 12, 23, 34, 45] = true ∧
    verificar_terno cartonA [1, 12, 23, 34, 45] = true ∧
    verificar_ambo cartonA [1, 12, 23, 34, 45] = true :=
  ⟨by decide, c7_cinquina_implica_inferiores cartonA [1, 12, 23, 34, 45] (by decide)⟩

/-- Claim C8: the source's cinquina check tests `== 5`; on every card whose
rows hold at most 5 numbers it agrees with the spec's `≥ 5` variant. -/
theorem c8_cinquina_equivalencia (carton : Carton) (marcados : List Nat)
    (h : ∀ fila ∈ carton, (numerosFila fila).length ≤ 5) :
    verificar_cinquina carton marcados = verificar_cinquina_ge carton marcados := by
  unfold verificar_cinquina verificar_cinquina_ge
  refine any_congr (fun fila hf => ?_)
  have hle : marcadosEnFila fila marcados ≤ 5 :=
    le_trans (marcadosEnFila_le fila marcados) (h fila hf)
  rw [Bool.eq_iff_iff]
  simp only [beq_iff_eq, decide_eq_true_eq]
  omega

theorem c8_witness :
    (∀ fila ∈ cartonA, (numerosFila fila).length ≤ 5) ∧
    verificar_cinquina cartonA [1, 12, 23, 34, 45] =
      verificar_cinquina_ge cartonA [1, 12, 23, 34, 45] :=
  ⟨by decide, c8_cinquina_equivalencia cartonA [1, 12, 23, 34, 45] (by decide)⟩

/-- Claim C10: all five prize checks and the aggregated prize status depend
only on the marked numbers that actually appear on the card: two marked sets
agreeing on the card's numbers produce identical results. -/
theorem c10_premios_solo_carton (carton : Carton) (m₁ m₂ : List Nat)
    (h : ∀ n ∈ todosNumeros carton, m₁.contains n = m₂.contains n) :
    verificar_ambo carton m₁ = verificar_ambo carton m₂ ∧
    verificar_terno carton m₁ = verificar_terno carton m₂ ∧
    verificar_quaterna carton m₁ = verificar_quaterna carton m₂ ∧
    verificar_cinquina carton m₁ = verificar_cinquina carton m₂ ∧
    verificar_tombola carton m₁ = verificar_tombola carton m₂ ∧
    obtener_estado_premios carton m₁ = obtener_estado_premios carton m₂ := by
  have hfila : ∀ fila ∈ carton, marcadosEnFila fila m₁ = marcadosEnFila fila m₂ :=
    fun fila hf => marcadosEnFila_congr hf h
  have hambo : verificar_ambo carton m₁ = verificar_ambo carton m₂ :=
    any_congr (fun fila hf => by rw [hfila fila hf])
  have hterno : verificar_terno carton m₁ = verificar_terno carton m₂ :=
    any_congr (fun fila hf => by rw [hfila fila hf])
  have hquaterna : verificar_quaterna carton m₁ = verificar_quaterna carton m₂ :=
    any_congr (fun fila hf => by rw [hfila fila hf])
  have hcinquina : verificar_cinquina carton m₁ = verificar_cinquina carton m₂ :=
    any_congr (fun fila hf => by rw [hfila fila hf])
  have htombola : verificar_tombola carton m₁ = verificar_tombola carton m₂ := by
    show ((todosNumeros carton).length == 15 &&
        (todosNumeros carton).all fun n => m₁.contains n) =
      ((todosNumeros carton).length == 15 &&
        (todosNumeros carton).all fun n => m₂.contains n)
    rw [all_congr (fun n hn => h n hn)]
  exact ⟨hambo, hterno, hquaterna, hcinquina, htombola, by
    unfold obtener_estado_premios
    rw [hambo, hterno, hquaterna, hcinquina, htombola]⟩

theorem c10_witness :
    (∀ n ∈ todosNumeros cartonA,
      (List.contains [1, 12, 77] n) = (List.contains [12, 1, 1, 88] n)) ∧
    verificar_ambo cartonA [1, 12, 77] = verificar_ambo cartonA [12, 1, 1, 88] ∧
    obtener_estado_premios cartonA [1, 12, 77] =
      obtener_estado_premios cartonA [12, 1, 1, 88] :=
  ⟨by decide,
   (c10_premios_solo_carton cartonA [1, 12, 77] [12, 1, 1, 88] (by decide)).1,
   (c10_premios_solo_carton cartonA [1, 12, 77] [12, 1, 1, 88] (by decide)).2.2.2.2.2⟩

theorem estaOrdenada_chain' :
    ∀ l : List Nat, estaOrdenada l = true → l.Chain' (· ≤ ·)
  | [], _ => List.chain'_nil
  | [a], _ => List.chain'_singleton a
  | a :: b :: rest, h => by
    simp only [estaOrdenada, Bool.and_eq_true, decide_eq_true_eq] at h
    exact List.chain'_cons.mpr ⟨h.1, estaOrdenada_chain' (b :: rest) h.2⟩

theorem nodup_of_tieneDuplicados :
    ∀ l : List Nat, tieneDuplicados l = false → l.Nodup
  | [], _ => List.nodup_nil
  | n :: rest, h => by
    simp only [tieneDuplicados, Bool.or_eq_false_iff] at h
    refine List.nodup_cons.mpr
      ⟨fun hmem => ?_, nodup_of_tieneDuplicados rest h.2⟩
    have hc : rest.contains n = true := by simpa using hmem
    rw [hc] at h
    exact absurd h.1 (by simp)

theorem rangos_getD : ∀ col, col < 9 →
    RANGOS_COLUMNAS.getD col (0, 0) = (10 * col + 1, 10 * col + 10) := by
  decide

theorem columna_eq (r0 r1 r2 : List (Option Nat)) (col : Nat) :
    columna [r0, r1, r2] col =
      (r0.getD col none).toList ++ (r1.getD col none).toList ++
        (r2.getD col none).toList := by
  rcases h0 : r0[col]?.getD none with _ | a <;>
    rcases h1 : r1[col]?.getD none with _ | b <;>
      rcases h2 : r2[col]?.getD none with _ | c <;>
        simp [columna, show List.range 3 = [0, 1, 2] from rfl, List.getD,
          h0, h1, h2]

theorem count_columna_eq (r0 r1 r2 : List (Option Nat)) (col : Nat) :
    (([r0, r1, r2] : Carton).filter
        (fun fila => ((fila.getD col none).isSome))).length =
      (columna [r0, r1, r2] col).length := by
  rw [columna_eq]
  rcases h0 : r0[col]?.getD none with _ | a <;>
    rcases h1 : r1[col]?.getD none with _ | b <;>
      rcases h2 : r2[col]?.getD none with _ | c <;>
        simp [List.getD, h0, h1, h2, List.filter]

theorem toList_getD_sublist (r : List (Option Nat)) (col : Nat) :
    List.Sublist ((r.getD col none).toList) (numerosFila r) := by
  have hgd : r.getD col none = (r.get? col).getD none :=
    List.getD_eq_getD_get? r none col
  cases hq : r.get? col with
  | none =>
    rw [hgd, hq]
    simp
  | some o =>
    rw [hgd, hq]
    cases o with
    | none => simp
    | some n =>
      show List.Sublist ((some n).toList) (numerosFila r)
      rw [show (some n).toList = [n] from rfl, List.singleton_sublist]
      exact List.mem_filterMap.mpr ⟨some n, List.get?_mem hq, rfl⟩

theorem todosNumeros_eq (r0 r1 r2 : List (Option Nat)) :
    todosNumeros [r0, r1, r2] =
      numerosFila r0 ++ (numerosFila r1 ++ (numerosFila r2 ++ [])) := by
  simp [todosNumeros]

theorem columna_sublist_todos (r0 r1 r2 : List (Option Nat)) (col : Nat) :
    List.Sublist (columna [r0, r1, r2] col) (todosNumeros [r0, r1, r2]) := by
  rw [columna_eq, todosNumeros_eq]
  have h2 : List.Sublist ((r2.getD col none).toList) (numerosFila r2 ++ []) := by
    simpa using toList_getD_sublist r2 col
  have h := (toList_getD_sublist r0 col).append
    ((toList_getD_sublist r1 col).append h2)
  simpa [List.append_assoc] using h

theorem chain'_lt_of_chain'_le_nodup {l : List Nat}
    (h1 : l.Chain' (· ≤ ·)) (h2 : l.Nodup) : l.Chain' (· < ·) := by
  rw [List.chain'_iff_pairwise] at h1 ⊢
  exact (h1.and h2).imp (fun h => lt_of_le_of_ne h.1 h.2)

theorem esCartonValido_invariantes (carton : Carton)
    (h : esCartonValido carton = true) : InvariantesCarton carton := by
  simp only [esCartonValido, Bool.and_eq_true] at h
  obtain ⟨⟨⟨⟨⟨⟨⟨h1, h2⟩, h3⟩, h4⟩, h5⟩, h6⟩, h7⟩, h8⟩ := h
  have hlen : carton.length = 3 := by simpa using h1
  obtain ⟨r0, r1, r2, rfl⟩ := List.length_eq_three.mp hlen
  have hrow9 : ∀ fila ∈ ([r0, r1, r2] : Carton), fila.length = 9 := by
    intro fila hf
    simpa using List.all_eq_true.mp h2 fila hf
  have hrow5 : ∀ fila ∈ ([r0, r1, r2] : Carton),
      (numerosFila fila).length = 5 := by
    intro fila hf
    simpa using List.all_eq_true.mp h3 fila hf
  have htotal : (todosNumeros [r0, r1, r2]).length = 15 := by
    rw [todosNumeros, List.length_flatten, List.map_map]
    simpa [Function.comp] using h4
  have hnodup : (todosNumeros [r0, r1, r2]).Nodup := by
    apply nodup_of_tieneDuplicados
    simpa using h8
  refine ⟨hlen, hrow9, hrow5, htotal, ?_, ?_, ?_, hnodup⟩
  · intro col hcol n hn
    obtain ⟨f, hf, hsome⟩ := List.mem_filterMap.mp hn
    have hcheck := List.all_eq_true.mp h6 col (List.mem_range.mpr hcol)
    have hcell := List.all_eq_true.mp hcheck f hf
    rw [hsome, rangos_getD col hcol] at hcell
    simpa [celdaEnRango] using hcell
  · intro col hcol
    have hc := List.all_eq_true.mp h5 col (List.mem_range.mpr hcol)
    rw [Bool.and_eq_true, decide_eq_true_eq, decide_eq_true_eq,
      count_columna_eq r0 r1 r2 col] at hc
    exact hc
  · intro col hcol
    have ho := List.all_eq_true.mp h7 col (List.mem_range.mpr hcol)
    exact chain'_lt_of_chain'_le_nodup (estaOrdenada_chain' _ ho)
      (hnodup.sublist (columna_sublist_todos r0 r1 r2 col))

theorem generarCartonAux_ok (o : Nat → OraculoIntento) :
    ∀ fuel intento c, (generarCartonAux o intento fuel).1 = .ok c →
      esCartonValido c = true := by
  intro fuel
  induction fuel with
  | zero =>
    intro i c h
    simp [generarCartonAux] at h
  | succ f ih =>
    intro i c h
    rw [generarCartonAux] at h
    split at h
    · exact ih _ _ h
    · split at h
      · rename_i hv
        cases h
        exact hv
      · exact ih _ _ h

theorem generarCartonAux_count (o : Nat → OraculoIntento) :
    ∀ fuel intento,
      (generarCartonAux o intento fuel).2 ≤ intento + fuel ∧
      (∀ msg, (generarCartonAux o intento fuel).1 = .error msg →
        (generarCartonAux o intento fuel).2 = intento + fuel ∧
        msg = "No se pudo generar un cartón válido después de 100 intentos") := by
  intro fuel
  induction fuel with
  | zero =>
    intro i
    refine ⟨Nat.le_refl _, fun msg h => ⟨rfl, ?_⟩⟩
    simp only [generarCartonAux] at h
    exact (Except.error.injEq _ _).mp h.symm
  | succ f ih =>
    intro i
    rw [generarCartonAux]
    split
    · refine ⟨le_trans (ih (i + 1)).1 (by omega), fun msg h => ?_⟩
      have := (ih (i + 1)).2 msg h
      exact ⟨by omega, this.2⟩
    · split
      · exact ⟨by omega, fun msg h => by simp at h⟩
      · refine ⟨le_trans (ih (i + 1)).1 (by omega), fun msg h => ?_⟩
        have := (ih (i + 1)).2 msg h
        exact ⟨by omega, this.2⟩

/-- Claim C1: every card returned by `generar_carton` satisfies the §3
structural invariants: 3×9 shape, 5 numbers per row, 15 in total, column `c`
inside `[10c+1, 10c+10]`, 1–3 numbers per column, columns strictly increasing
top-to-bottom, and no duplicates. -/
theorem c1_generar_carton_invariantes (o : Nat → OraculoIntento)
    (carton : Carton) (h : generar_carton o = .ok carton) :
    InvariantesCarton carton :=
  esCartonValido_invariantes carton (generarCartonAux_ok o 100 0 carton h)

theorem c1_witness : InvariantesCarton cartonW :=
  c1_generar_carton_invariantes oraculoW cartonW rfl

/-- Claim C6: card generation is a bounded loop: it makes at most 100
attempts; a returned card passed the validator, and a failure is the
generation-failure exception raised exactly at the 100-attempt bound. -/
theorem c6_generacion_acotada (o : Nat → OraculoIntento) :
    generar_carton_intentos o ≤ 100 ∧
    (∀ carton, generar_carton o = .ok carton →
      esCartonValido carton = true) ∧
    (∀ msg, generar_carton o = .error msg →
      generar_carton_intentos o = 100 ∧
      msg = "No se pudo generar un cartón válido después de 100 intentos") :=
  ⟨(generarCartonAux_count o 100 0).1,
   fun carton h => generarCartonAux_ok o 100 0 carton h,
   fun msg h => (generarCartonAux_count o 100 0).2 msg h⟩

theorem c6_witness :
    generar_carton_intentos oraculoW ≤ 100 ∧
    esCartonValido cartonW = true :=
  ⟨(c6_generacion_acotada oraculoW).1,
   (c6_generacion_acotada oraculoW).2.1 cartonW rfl⟩

/-- Claim C3: the draw always returns an undrawn number of 1–90 when one
exists, and `none` when all of 1–90 have been drawn; in particular it returns
`none` on the full list `[1..90]`. -/
theorem c3_sortear_numero_spec (numeros_sorteados : List Nat)
    (choice : List Nat → Nat) :
    ((∃ n, 1 ≤ n ∧ n ≤ 90 ∧ n ∉ numeros_sorteados) →
      ∃ m, sortear_numero numeros_sorteados choice = some m ∧
        1 ≤ m ∧ m ≤ 90 ∧ m ∉ numeros_sorteados) ∧
    ((∀ n, 1 ≤ n → n ≤ 90 → n ∈ numeros_sorteados) →
      sortear_numero numeros_sorteados choice = none) ∧
    sortear_numero (List.range' 1 90) choice = none := by
  refine ⟨?_, ?_, ?_⟩
  · rintro ⟨n, h1, h90, hnot⟩
    unfold sortear_numero
    set disponibles := disponiblesSorteo numeros_sorteados with hd
    have hmem : n ∈ disponibles := by
      rw [hd, disponiblesSorteo, List.mem_filter]
      exact ⟨List.mem_range'_1.mpr ⟨h1, by omega⟩, by simpa using hnot⟩
    have hne : disponibles.isEmpty = false := by
      cases hcase : disponibles.isEmpty
      · rfl
      · rw [List.isEmpty_iff] at hcase
        rw [hcase] at hmem
        cases hmem
    rw [hne]
    simp only [Bool.false_eq_true, if_false]
    have hlen : 0 < disponibles.length :=
      List.length_pos.mpr (List.ne_nil_of_mem hmem)
    have hlt : choice disponibles % disponibles.length < disponibles.length :=
      Nat.mod_lt _ hlen
    obtain ⟨m, hm⟩ : ∃ m,
        disponibles.getD (choice disponibles % disponibles.length) 0 = m :=
      ⟨_, rfl⟩
    refine ⟨m, by rw [hm], ?_⟩
    have hmel : m ∈ disponibles := by
      rw [← hm, List.getD_eq_getElem disponibles 0 hlt]
      exact List.getElem_mem hlt
    rw [hd, disponiblesSorteo, List.mem_filter] at hmel
    obtain ⟨hrange, hcontains⟩ := hmel
    rw [List.mem_range'_1] at hrange
    refine ⟨hrange.1, by omega, by simpa using hcontains⟩
  · intro h
    unfold sortear_numero
    have hnil : disponiblesSorteo numeros_sorteados = [] := by
      rw [disponiblesSorteo, List.filter_eq_nil_iff]
      intro a ha
      rw [List.mem_range'_1] at ha
      simp only [Bool.not_eq_true', Bool.not_eq_false]
      simpa using h a ha.1 (by omega)
    rw [hnil]
    rfl
  · unfold sortear_numero
    have hnil : disponiblesSorteo (List.range' 1 90) = [] := by
      rw [disponiblesSorteo, List.filter_eq_nil_iff]
      intro a ha
      simp [ha]
    rw [hnil]
    rfl

theorem c3_witness :
    (∃ m, sortear_numero [] (fun _ => 0) = some m ∧
      1 ≤ m ∧ m ≤ 90 ∧ m ∉ ([] : List Nat)) ∧
    sortear_numero (List.range' 1 90) (fun _ => 0) = none :=
  ⟨(c3_sortear_numero_spec [] (fun _ => 0)).1
      ⟨1, by decide, by decide, by decide⟩,
   (c3_sortear_numero_spec (List.range' 1 90) (fun _ => 0)).2.1
      (fun n h1 h90 => List.mem_range'_1.mpr ⟨h1, by omega⟩)⟩

/-- Claim C4: if the number appears on the card, marking adds it to the marked
list unless already present and returns `true`; otherwise the marked list is
unchanged and marking returns `false`; marking twice equals marking once. -/
theorem c4_marcar_numero_spec (carton : Carton) (numero : Nat)
    (marcados : List Nat) :
    (numeroEnCarton carton numero = true →
      marcar_numero carton numero marcados =
        (true, if marcados.contains numero then marcados
               else marcados ++ [numero])) ∧
    (numeroEnCarton carton numero = false →
      marcar_numero carton numero marcados = (false, marcados)) ∧
    (marcar_numero carton numero
        (marcar_numero carton numero marcados).2).2 =
      (marcar_numero carton numero marcados).2 := by
  induction carton generalizing marcados with
  | nil =>
    refine ⟨?_, fun _ => rfl, rfl⟩
    intro h
    simp [numeroEnCarton] at h
  | cons fila resto ih =>
    cases hf : fila.any (fun c => c == some numero) with
    | true =>
      have hmark : ∀ m : List Nat, marcar_numero (fila :: resto) numero m =
          (true, if m.contains numero then m else m ++ [numero]) := by
        intro m
        simp [marcar_numero, hf]
      refine ⟨fun _ => hmark marcados, ?_, ?_⟩
      · intro h
        simp [numeroEnCarton, List.any_cons, hf] at h
      · rw [hmark marcados, hmark (if marcados.contains numero then marcados
          else marcados ++ [numero])]
        cases hc : marcados.contains numero with
        | true =>
          have hm : numero ∈ marcados := by simpa using hc
          simp [hc, hm]
        | false =>
          have hm : numero ∉ marcados := by simpa using hc
          simp [hc, hm]
    | false =>
      have hmark : ∀ m : List Nat, marcar_numero (fila :: resto) numero m =
          marcar_numero resto numero m := by
        intro m
        simp [marcar_numero, hf]
      have hcard : numeroEnCarton (fila :: resto) numero =
          numeroEnCarton resto numero := by
        simp [numeroEnCarton, List.any_cons, hf]
      refine ⟨?_, ?_, ?_⟩
      · intro h
        rw [hcard] at h
        rw [hmark]
        exact (ih marcados).1 h
      · intro h
        rw [hcard] at h
        rw [hmark]
        exact (ih marcados).2.1 h
      · rw [hmark marcados, hmark (marcar_numero resto numero marcados).2]
        exact (ih marcados).2.2

theorem c4_witness :
    (numeroEnCarton cartonA 12 = true ∧
      marcar_numero cartonA 12 [1] = (true, [1, 12])) ∧
    (numeroEnCarton cartonA 13 = false ∧
      marcar_numero cartonA 13 [1] = (false, [1])) ∧
    (marcar_numero cartonA 12 (marcar_numero cartonA 12 [1]).2).2 =
      (marcar_numero cartonA 12 [1]).2 :=
  ⟨⟨by decide, (c4_marcar_numero_spec cartonA 12 [1]).1 (by decide)⟩,
   ⟨by decide, (c4_marcar_numero_spec cartonA 13 [1]).2.1 (by decide)⟩,
   (c4_marcar_numero_spec cartonA 12 [1]).2.2⟩

/-- Claim C2, counterexample: at the spec's scenario A, with all 7 numbers of
the card marked, the tombola check returns `false` (the card has 7 numbers,
not the 15 the check requires), refuting the claim's final conjunct. -/
theorem c2_counterexample :
    ¬ (verificar_tombola cartonA [1, 12, 23, 34, 45, 56, 90] = true) := by
  decide

/-- Claim C2 as amended: the scenario holds exactly as stated for ambo, terno,
quaterna and cinquina, but marking all 7 of the card's numbers leaves the
tombola check `false`, because the card does not hold 15 numbers. -/
theorem c2_amended_scenario :
    verificar_ambo cartonA [1, 12] = true ∧
    verificar_terno cartonA [1, 12] = false ∧
    verificar_terno cartonA [1, 12, 23] = true ∧
    verificar_quaterna cartonA [1, 12, 23] = false ∧
    verificar_quaterna cartonA [1, 12, 23, 34] = true ∧
    verificar_cinquina cartonA [1, 12, 23, 34] = false ∧
    verificar_cinquina cartonA [1, 12, 23, 34, 45] = true ∧
    verificar_tombola cartonA [1, 12, 23, 34, 45] = false ∧
    verificar_tombola cartonA [1, 12, 23, 34, 45, 56, 90] = false := by
  decide

end TombolaLogic

namespace Views

theorem verificarPremiosAux_tipo_mem (now : Nat) :
    ∀ tipos partida premio,
      premio ∈ (verificarPremiosAux now partida tipos).2 →
      premio.tipo ∈ tipos := by
  intro tipos
  induction tipos with
  | nil =>
    intro partida premio h
    simp [verificarPremiosAux] at h
  | cons tipo resto ih =>
    intro partida premio h
    rw [verificarPremiosAux] at h
    split at h
    · exact List.mem_cons_of_mem _ (ih _ _ h)
    · split at h
      · exact List.mem_cons_of_mem _ (ih _ _ h)
      · split at h
        · simp only [List.mem_singleton] at h
          rw [h]
          exact List.mem_cons_self _ _
        · rcases List.mem_cons.mp h with hp | hp
          · rw [hp]
            exact List.mem_cons_self _ _
          · exact List.mem_cons_of_mem _ (ih _ _ hp)

/-- Claim C5: when the tombola tier is newly awarded by the prize evaluation,
the game ends: the status becomes `finished` with the finish time stamped, no
further tier is evaluated on that draw (the tombola award is the only prize
returned), and every later draw on the resulting state is rejected because
the game is no longer in progress. -/
theorem c5_tombola_finaliza_partida (now : Nat) (partida : Partida)
    (premio : Premio)
    (hmem : premio ∈ (verificar_premios_partida now partida).2)
    (htipo : premio.tipo = "tombola") :
    (verificar_premios_partida now partida).1.status = GameStatus.finished ∧
    (verificar_premios_partida now partida).1.finished_at = some now ∧
    (verificar_premios_partida now partida).2 = [premio] ∧
    (∀ choice now2,
      sortear_numero (verificar_premios_partida now partida).1 choice now2 =
        .error "La partida no está en progreso") := by
  by_cases hskip :
      (partida.prizes.any (fun p => p.tipo == "tombola")) = true
  · have heq : verificar_premios_partida now partida =
        verificarPremiosAux now partida
          ["cinquina", "quaterna", "terno", "ambo"] := by
      rw [verificar_premios_partida, premiosJerarquia, verificarPremiosAux,
        if_pos hskip]
    rw [heq] at hmem
    have := verificarPremiosAux_tipo_mem now _ _ _ hmem
    rw [htipo] at this
    exact absurd this (by decide)
  · cases hb : buscarGanador partida.cartones "tombola" with
    | none =>
      have heq : verificar_premios_partida now partida =
          verificarPremiosAux now partida
            ["cinquina", "quaterna", "terno", "ambo"] := by
        rw [verificar_premios_partida, premiosJerarquia, verificarPremiosAux,
          if_neg hskip, hb]
      rw [heq] at hmem
      have := verificarPremiosAux_tipo_mem now _ _ _ hmem
      rw [htipo] at this
      exact absurd this (by decide)
    | some idx =>
      have heq : verificar_premios_partida now partida =
          ({ partida with
              prizes := partida.prizes ++ [{ tipo := "tombola", ganador := idx }],
              status := .finished, finished_at := some now },
           [{ tipo := "tombola", ganador := idx }]) := by
        rw [verificar_premios_partida, premiosJerarquia, verificarPremiosAux,
          if_neg hskip, hb]
        rfl
      have hpremio : premio = { tipo := "tombola", ganador := idx } := by
        rw [heq] at hmem
        simpa using hmem
      rw [heq, hpremio]
      exact ⟨rfl, rfl, rfl, fun choice now2 => rfl⟩

theorem c5_witness :
    (verificar_premios_partida 7 partidaW).1.status = GameStatus.finished ∧
    (verificar_premios_partida 7 partidaW).1.finished_at = some 7 ∧
    (verificar_premios_partida 7 partidaW).2 =
      [{ tipo := "tombola", ganador := 0 }] ∧
    sortear_numero (verificar_premios_partida 7 partidaW).1 (fun _ => 0) 9 =
      .error "La partida no está en progreso" := by
  have h := c5_tombola_finaliza_partida 7 partidaW
    { tipo := "tombola", ganador := 0 }
    (by
      rw [show (verificar_premios_partida 7 partidaW).2 =
        [{ tipo := "tombola", ganador := 0 }] from rfl]
      exact List.mem_singleton.mpr rfl) rfl
  exact ⟨h.1, h.2.1, h.2.2.1, h.2.2.2 (fun _ => 0) 9⟩

end Views

end Tombola
